import Mathlib

/-!
Verification of the timespan-normalization and query-dispatch layer of the
remote-mcp-function-python repository.

The development shallowly embeds the relevant Python source:

* `LogAnalyticsTool._parse_timespan` (src/utils/log_analytics_tool.py) as
  `parse_timespan`, with wall-clock instants modelled as `Int` minutes and
  `datetime.timedelta` arithmetic as exact integer arithmetic (the code only
  uses day/hour/minute deltas, so minute granularity is exact);
* Python's builtin `int(str)` as `pyInt?`: an optional surrounding run of
  whitespace, an optional single `+`/`-` sign, and a nonempty run of ASCII
  decimal digits (the underscore-grouping and non-ASCII-digit forms of the
  builtin are not exercised by this repository and are left out of the model);
* `re.match(r'P(\d+)D', s)` as `isoDays?` (anchored at the start, trailing
  text permitted, greedy digits — equivalent to maximal-munch since `D` is
  not a digit);
* `LogAnalyticsTool.run_query` and `mcp_tools.log_analytics_tool` as functions
  over an injected backend (the already-authenticated Azure query client,
  credential acquisition and client construction being external concerns);
* `mcp_tools.ensure_serializable` over an inductive `PyVal` modelling the
  Python values the function discriminates on;
* the `mcp_tools` report functions as producers of `ReportAction` values
  recording either the early structured error or the exact backend call
  (query text, target id, timespan argument) they perform.

Python `None` arguments are modelled with `Option`; a Python `str` parameter
that the code tests for falsiness is modelled as a `String`, with `""` the
falsy value.
-/

/-! ## Time model: instants and `datetime.timedelta` in minutes -/

/-- `datetime.timedelta(days=v)`, in minutes. -/
def timedeltaDays (v : Int) : Int := 1440 * v

/-- `datetime.timedelta(hours=v)`, in minutes. -/
def timedeltaHours (v : Int) : Int := 60 * v

/-- `datetime.timedelta(minutes=v)`, in minutes. -/
def timedeltaMinutes (v : Int) : Int := v

/-- Minutes in one unit of the `"<n><unit>"` token grammar (`d`/`h`/`m`). -/
def unitMinutes (c : Char) : Int :=
  if c = 'd' then 1440 else if c = 'h' then 60 else if c = 'm' then 1 else 0

/-! ## Python `int(str)` -/

/-- Strip leading and trailing whitespace, as Python `int()` does before
parsing its argument. -/
def trimWs (cs : List Char) : List Char :=
  ((cs.dropWhile Char.isWhitespace).reverse.dropWhile Char.isWhitespace).reverse

/-- Value of a run of decimal digits, most significant first. -/
def digitsVal (cs : List Char) : Nat :=
  cs.foldl (fun acc c => 10 * acc + (c.toNat - 48)) 0

/-- `some` value of a nonempty all-digit run, `none` otherwise. -/
def digitsVal? (cs : List Char) : Option Nat :=
  if cs ≠ [] ∧ cs.all Char.isDigit then some (digitsVal cs) else none

/-- Python `int(s)`: `some` integer on success, `none` where the builtin
raises `ValueError`. -/
def pyInt? (s : String) : Option Int :=
  match trimWs s.toList with
  | [] => none
  | c :: rest =>
    if c = '-' then (digitsVal? rest).map (fun n => -(Int.ofNat n))
    else if c = '+' then (digitsVal? rest).map (fun n => Int.ofNat n)
    else (digitsVal? (c :: rest)).map (fun n => Int.ofNat n)

/-! ## `re.match(r'P(\d+)D', s)` -/

/-- Days captured by `re.match(r'P(\d+)D', timespan)`: a leading `P`, a
nonempty digit run, then a literal `D` (anything may follow). -/
def isoDays? (cs : List Char) : Option Nat :=
  match cs with
  | 'P' :: rest =>
    let digits := rest.takeWhile Char.isDigit
    if digits ≠ [] ∧ (rest.drop digits.length).head? = some 'D' then
      some (digitsVal digits)
    else none
  | _ => none

/-! ## `LogAnalyticsTool._parse_timespan` -/

/-- Embedding of `LogAnalyticsTool._parse_timespan` from
src/utils/log_analytics_tool.py. `now` is the wall clock read at entry
(`end_time = datetime.datetime.now()`). The result is the `(start_time,
end_time)` pair, or `.error` where the Python code raises: `timespan[-1]`
on the empty string raises `IndexError` before the `try` block that guards
the `int()` conversions, so it escapes `_parse_timespan` (its caller
`run_query` catches it). A non-string (`None`) argument takes the final
`else` branch. -/
def parse_timespan (now : Int) (timespan : Option String) : Except String (Int × Int) :=
  let end_time := now
  match timespan with
  | some s =>
    match s.toList with
    | [] =>
      -- not startswith 'P'; `timespan[-1]` raises outside the try/except
      .error "IndexError: string index out of range"
    | c :: cs =>
      if c = 'P' then
        -- ISO 8601 branch: re.match(r'P(\d+)D', timespan)
        match isoDays? (c :: cs) with
        | some days => .ok (end_time - timedeltaDays days, end_time)
        | none => .ok (end_time - timedeltaDays 1, end_time)
      else
        -- simple "<n><unit>" branch
        let unit := (List.getLast (c :: cs) (List.cons_ne_nil c cs)).toLower
        match pyInt? (String.mk (c :: cs).dropLast) with
        | some value =>
          if unit = 'd' then .ok (end_time - timedeltaDays value, end_time)
          else if unit = 'h' then .ok (end_time - timedeltaHours value, end_time)
          else if unit = 'm' then .ok (end_time - timedeltaMinutes value, end_time)
          else
            -- unrecognized unit: int(timespan) days, ValueError falls back
            match pyInt? s with
            | some w => .ok (end_time - timedeltaDays w, end_time)
            | none => .ok (end_time - timedeltaDays 1, end_time)
        | none =>
          -- ValueError from int(timespan[:-1]): default to 1 day
          .ok (end_time - timedeltaDays 1, end_time)
  | none => .ok (end_time - timedeltaDays 1, end_time)

deriving instance DecidableEq for Except

example : parse_timespan 0 (some "30d") = .ok (-43200, 0) := by decide
example : parse_timespan 0 (some "12H") = .ok (-720, 0) := by decide
example : parse_timespan 0 (some "45m") = .ok (-45, 0) := by decide
example : parse_timespan 0 (some "0d") = .ok (0, 0) := by decide
example : parse_timespan 0 (some "P7D") = .ok (-10080, 0) := by decide
example : parse_timespan 0 (some "Pxx") = .ok (-1440, 0) := by decide
example : parse_timespan 0 (some "garbage") = .ok (-1440, 0) := by decide
example : parse_timespan 0 (some "") = .error "IndexError: string index out of range" := by decide
example : parse_timespan 0 none = .ok (-1440, 0) := by decide
example : parse_timespan 0 (some "305") = .ok (-439200, 0) := by decide
example : parse_timespan 0 (some "-5d") = .ok (7200, 0) := by decide
example : parse_timespan 0 (some "5x") = .ok (-1440, 0) := by decide

/-! ## Python values and `mcp_tools.ensure_serializable` -/

/-- Model of the Python runtime values that `mcp_tools.ensure_serializable`
discriminates between with its `isinstance` / `hasattr` chain.

* `dataframe cols rows` — a `pd.DataFrame` with its column names and row
  cells; `to_dict(orient="records")` yields one dict per row, cells raw.
* `series items` — a `pd.Series` or `pd.Index`; `tolist()` yields the
  elements raw.
* `timestamp` / `datetime` / `date` — a `pd.Timestamp`, `datetime.datetime`
  or `datetime.date`, carried as its `isoformat()` rendering.
* `objToDict d` — a non-pandas object exposing `to_dict()`, whose call
  returns `d`.
* `objDict fields` — an object without `to_dict` whose `__dict__` holds the
  given fields.
* `vlist` / `vtuple` / `vdict` — the builtin collections (dict keys are
  modelled as strings; the code passes keys through untouched).
* `vnone` / `vbool` / `vint` / `vstr` — scalars `json.dumps` accepts as-is.
* `foreign r dumpable` — any other object, with its `str()` rendering and
  whether `json.dumps` accepts it. -/
inductive PyVal where
  | vnone
  | vbool (b : Bool)
  | vint (n : Int)
  | vstr (s : String)
  | timestamp (iso : String)
  | datetime (iso : String)
  | date (iso : String)
  | dataframe (cols : List String) (rows : List (List PyVal))
  | series (items : List PyVal)
  | objToDict (d : PyVal)
  | objDict (fields : List (String × PyVal))
  | vlist (items : List PyVal)
  | vtuple (items : List PyVal)
  | vdict (entries : List (String × PyVal))
  | foreign (r : String) (dumpable : Bool)

mutual

/-- Embedding of `ensure_serializable` from src/mcp_tools.py, branch for
branch in source order: DataFrame → records, Series/Index → `tolist()`,
Timestamp/datetime/date → `isoformat()`, `to_dict()` result returned raw,
`__dict__` / list / tuple / dict recursed element-wise, and a final
`json.dumps`-or-`str()` fallback. -/
def ensure_serializable : PyVal → PyVal
  | .dataframe cols rows => .vlist (rows.map (fun r => .vdict (cols.zip r)))
  | .series items => .vlist items
  | .timestamp iso => .vstr iso
  | .datetime iso => .vstr iso
  | .date iso => .vstr iso
  | .objToDict d => d
  | .objDict fields => .vdict (ensureEntries fields)
  | .vlist items => .vlist (ensureList items)
  | .vtuple items => .vlist (ensureList items)
  | .vdict entries => .vdict (ensureEntries entries)
  | .vnone => .vnone
  | .vbool b => .vbool b
  | .vint n => .vint n
  | .vstr s => .vstr s
  | .foreign r dumpable => if dumpable then .foreign r dumpable else .vstr r

/-- `[ensure_serializable(item) for item in obj]`. -/
def ensureList : List PyVal → List PyVal
  | [] => []
  | v :: vs => ensure_serializable v :: ensureList vs

/-- `{k: ensure_serializable(v) for k, v in ...}`. -/
def ensureEntries : List (String × PyVal) → List (String × PyVal)
  | [] => []
  | (k, v) :: es => (k, ensure_serializable v) :: ensureEntries es

end


/-! ## `LogAnalyticsTool.run_query` and `mcp_tools.log_analytics_tool`

The Azure `LogsQueryClient.query_workspace` call is the external backend; it
is injected as a function from the query text, workspace id and resolved
time window to either the response tables or a raised exception (modelled as
`Except.error` with the exception's message). Credential acquisition and
client construction are the external identity plumbing the spec scopes out;
they are absorbed into the injected backend handle. -/

/-- One table of a `query_workspace` response: its column names and rows. -/
structure LogsTable where
  columns : List String
  rows : List (List PyVal)

/-- A backend: `query_workspace(workspace_id, query, timespan) -> tables`,
or a raised exception carried as `Except.error message`. -/
def QueryBackend : Type :=
  String → String → (Int × Int) → Except String (List LogsTable)

/-- Embedding of `LogAnalyticsTool.run_query` from
src/utils/log_analytics_tool.py. Everything in the `try` block — including
the `_parse_timespan` call, whose `IndexError` on the empty string is an
`Exception` — is guarded by the `except` clauses, which both return
`{"error": str(e)}`; on success each response table becomes a
`pd.DataFrame(data=table.rows, columns=table.columns)` and the list of
DataFrames is returned. (The workspace-id format regex only logs a warning
and does not change the result, so it does not appear here.) -/
def run_query (backend : QueryBackend) (now : Int)
    (query workspace_id : String) (timespan : Option String) : PyVal :=
  match parse_timespan now timespan with
  | .error e => .vdict [("error", .vstr e)]
  | .ok win =>
    match backend query workspace_id win with
    | .error e => .vdict [("error", .vstr e)]
    | .ok tables => .vlist (tables.map (fun t => .dataframe t.columns t.rows))

/-- The `if not timespan: timespan = "30d"` defaulting at the top of
`mcp_tools.log_analytics_tool` (`None` and `""` are the falsy strings). -/
def applyDefaultTimespan (timespan : Option String) : String :=
  match timespan with
  | none => "30d"
  | some s => if s = "" then "30d" else s

/-- Embedding of `mcp_tools.log_analytics_tool`: apply the `"30d"` default,
run the query, and canonicalize the response with `ensure_serializable`
(the final `json.dumps` is a faithful rendering of the returned value and
is left as the identity on the canonical value; the surrounding
`try/except` also wraps credential/client construction, which the injected
backend abstracts). -/
def log_analytics_tool (backend : QueryBackend) (now : Int)
    (query workspace_id : String) (timespan : Option String) : PyVal :=
  ensure_serializable
    (run_query backend now query workspace_id
      (some (applyDefaultTimespan timespan)))

/-! ## The `mcp_tools` report functions

Each report function either returns an early `json.dumps({"error": ...})`
before any query, or performs exactly one call to `resource_graph_tool`
(Resource Graph reports) or `log_analytics_tool` (Log Analytics reports).
`ReportAction` records which. -/

/-- What a report function does: fail early with a structured error, or
issue one backend call with the recorded arguments. -/
inductive ReportAction where
  | earlyError (msg : String)
  | graphQuery (query : String) (subscription_id : String)
  | logsQuery (query : String) (workspace_id : String) (timespan : Option String)
deriving DecidableEq

/-- `true` iff the report returned a structured error without issuing any
backend query. -/
def ReportAction.isEarlyError : ReportAction → Bool
  | .earlyError _ => true
  | _ => false

/-- The fixed Resource Graph query text of `GetServerMetadata`. -/
def serverMetadataKql : String :=
  "resources | where type == \x27microsoft.hybridcompute/machines\x27 | project name, type, location, resourceGroup, OsVersion=properties.osSku, processor=properties.detectedProperties.processorNames , coreCount=properties.detectedProperties.logicalCoreCount, RamGB=properties.detectedProperties.totalPhysicalMemoryInGigabytes, subnet=properties.networkProfile.networkInterfaces[0].ipAddresses[0].address, mssqlDiscovered=properties.mssqlDiscovered"

/-- The fixed Resource Graph query text of `GetSqlMetadata`. -/
def sqlMetadataKql : String :=
  "resources | where type =~ \x27microsoft.azurearcdata/sqlserverinstances\x27 | project id, SrvName=name, SrvVersion=tostring(properties[\x27version\x27]), SrvLicenseType=tostring(properties[\x27licenseType\x27]), SrvEdition=tostring(properties[\x27edition\x27]), SrvvCore=toint(properties[\x27vCore\x27]) | join kind=leftouter (resources | where type =~\x27microsoft.azurearcdata/sqlserverinstances/databases\x27 | project id,DbName=name, DatabaseOptions=properties[\x27databaseOptions\x27], DbBackupInformation=properties[\x27backupInformation\x27],DbSpaceAvailableMB=toint(properties[\x27spaceAvailableMB\x27]), DbSizeMB=toint(properties[\x27sizeMB\x27]) | extend ServerId=tostring(parse_path(tostring(parse_path([\x27id\x27])[\x27DirectoryPath\x27])) [\x27DirectoryPath\x27]) ) on $left.id == $right.ServerId | project-away id, id1"

/-- The fixed Resource Graph query text of `GetPatchingLevel`. -/
def patchingLevelKql : String :=
  "patchassessmentresources | where type == \x27microsoft.hybridcompute/machines/patchassessmentresults/softwarepatches\x27| project ServerName= extract(@\x27/machines/([^/]+)/\x27, 1, id), MissedPatch=properties"

/-- The f-string query text of `GetSqlBpAssessment`, with its one `\x7btimespan\x7d` hole. -/
def GetSqlBpAssessment_query (timespan : String) : String :=
  "let selectedCategories = dynamic([]);let selectedTotSev = dynamic([]); SqlAssessment_CL| where TimeGenerated > ago("
    ++ timespan
    ++ ") | extend asmt = parse_csv(RawData) | where asmt[11] =~ \x27MSSQLSERVER\x27 | extend AsmtId=tostring(asmt[1]), CheckId=tostring(asmt[2]), DisplayString=asmt[3], Description=tostring(asmt[4]), HelpLink=asmt[5], TargetType=case(asmt[6] == 1, \x27Server\x27, asmt[6] == 2, \x27Database\x27, \x27\x27), TargetName=tostring(asmt[7]), Severity=case(asmt[8] == 30, \x27High\x27, asmt[8] == 20, \x27Medium\x27, asmt[8] == 10, \x27Low\x27, asmt[8] == 0, \x27Information\x27, asmt[8] == 1, \x27Warning\x27, asmt[8] == 2, \x27Critical\x27, \x27Passed\x27), Message=tostring(asmt[9]), TagsArr=split(tostring(asmt[10]), \x27,\x27), Sev = toint(asmt[8]) | where (set_has_element(dynamic([\x27*\x27]), CheckId) or \x27*\x27 == \x27*\x27) and (set_has_element(dynamic([\x27*\x27]), TargetName) or \x27*\x27 == \x27*\x27) and set_has_element(dynamic([30, 20, 10, 0]), Sev) and (array_length(set_intersect(TagsArr, dynamic([\x27*\x27]))) > 0 or \x27*\x27 == \x27*\x27) and (CheckId == \x27\x27 and Sev == 0 or \x27\x27 == \x27\x27) | extend Category = case(array_length(set_intersect(TagsArr, dynamic([\x27CPU\x27, \x27IO\x27, \x27Storage\x27]))) > 0, \x270\x27, array_length(set_intersect(TagsArr, dynamic([\x27TraceFlag\x27, \x27Backup\x27, \x27DBCC\x27, \x27DBConfiguration\x27, \x27SystemHealth\x27, \x27Traces\x27, \x27DBFileConfiguration\x27, \x27Configuration\x27, \x27Replication\x27, \x27Agent\x27, \x27Security\x27, \x27DataIntegrity\x27, \x27MaxDOP\x27, \x27PageFile\x27, \x27Memory\x27, \x27Performance\x27, \x27Statistics\x27]))) > 0, \x271\x27, array_length(set_intersect(TagsArr, dynamic([\x27UpdateIssues\x27, \x27Index\x27, \x27Naming\x27, \x27Deprecated\x27, \x27masterDB\x27, \x27QueryOptimizer\x27, \x27QueryStore\x27, \x27Indexes\x27]))) > 0, \x272\x27, \x273\x27) | where (Sev >= 0 and array_length(selectedTotSev) == 0 or Sev in (selectedTotSev)) and (Category in (selectedCategories) or array_length(selectedCategories) == 0) | project TargetType, TargetName, Severity, Message, Tags=strcat_array(array_slice(TagsArr, 1, -1), \x27, \x27), CheckId, Description, HelpLink = tostring(HelpLink), SeverityCode = toint(Sev) | order by SeverityCode desc, TargetType desc, TargetName asc | project-away SeverityCode | extend PackedRecord = pack_all() | summarize Result = make_list(PackedRecord)"

/-- The f-string query text of `GetSwChangesList`; the fixed configuration `max_results = 500` and the `include_system_changes = False` filter are rendered in as the code does. -/
def GetSwChangesList_query (timespan : String) (ServerName : String) : String :=
  "ConfigurationChange \n| where TimeGenerated > datetime_utc_to_local(now(2h)-"
    ++ timespan
    ++ ", \x27Europe/Rome\x27) \n| where ConfigChangeType == \x27Software\x27 and Computer == \x27"
    ++ ServerName
    ++ "\x27\n| where SoftwareType !in (\x27Security Update\x27, \x27Update\x27, \x27Hotfix\x27)\n| project TimeGenerated, Computer, ChangeCategory, SoftwareType, SoftwareName, Previous, Publisher\n| top 500 by TimeGenerated desc"

/-- The f-string query text of `GetSwConfig`; `max_results = 1000` and the `include_system_software = False` filter rendered in. -/
def GetSwConfig_query (timespan : String) (ServerName : String) : String :=
  "ConfigurationData \n| where TimeGenerated > ago("
    ++ timespan
    ++ ")\n| where Computer == \x27"
    ++ ServerName
    ++ "\x27 and SoftwareName != \x27\x27 and SoftwareName !~ \x27unknown\x27\n| where SoftwareType !in (\x27Security Update\x27, \x27Update\x27, \x27Hotfix\x27, \x27Definition Update\x27)\n| summarize arg_max(TimeGenerated, *) by SoftwareName, Publisher, Computer, SoftwareType, CurrentVersion\n| project SoftwareName, Publisher, Computer, TimeGenerated, SoftwareType, CurrentVersion\n| top 1000 by SoftwareName asc"

/-- The f-string query text of `GetWinBpAssessment`; `weight_threshold = 5.0` and `max_results = 500` rendered in. -/
def GetWinBpAssessment_query (timespan : String) : String :=
  "WindowsServerAssessmentRecommendation \n| where TimeGenerated > ago("
    ++ timespan
    ++ ")\n| where FocusArea != \x27EnvironementFilter\x27 and RecommendationResult == \x27Failed\x27 and Computer != \x27\x27\n| extend Weight = (RecommendationScore/10)\n| where Weight >= 5.0\n| summarize by Computer, Recommendation, ActionArea, AffectedObjectType, FocusArea, RecommendationId, Description, Weight\n| top 500 by Weight desc"

/-- The f-string query text of `GetAnomalies` (the built `metrics_filter` is unused by the final query, whose namespace filter is hardcoded). -/
def GetAnomalies_query (timespan : String) : String :=
  "InsightsMetrics \n| where TimeGenerated >= ago("
    ++ timespan
    ++ ")\n| where Namespace in (\x27Processor\x27, \x27LogicalDisk\x27)\n| where isnotempty(Val) and isfinite(Val)\n| summarize AvgValue = avg(Val) by Computer, Namespace, bin(TimeGenerated, 1h)\n| where AvgValue > 80\n| project TimeGenerated, Computer, Namespace, AvgValue\n| sort by AvgValue desc\n| take 100"

/-- Embedding of `mcp_tools.GetServerMetadata`: `if not subscription_id`
return `{"error": "subscription_id is required"}`, else one Resource Graph
query. -/
def GetServerMetadata (subscription_id : String) : ReportAction :=
  if subscription_id = "" then .earlyError "subscription_id is required"
  else .graphQuery serverMetadataKql subscription_id

/-- Embedding of `mcp_tools.GetSqlMetadata`. -/
def GetSqlMetadata (subscription_id : String) : ReportAction :=
  if subscription_id = "" then .earlyError "subscription_id is required"
  else .graphQuery sqlMetadataKql subscription_id

/-- Embedding of `mcp_tools.GetPatchingLevel`. -/
def GetPatchingLevel (subscription_id : String) : ReportAction :=
  if subscription_id = "" then .earlyError "subscription_id is required"
  else .graphQuery patchingLevelKql subscription_id

/-- Embedding of `mcp_tools.GetSqlBpAssessment`: no parameter validation;
`if not timespan: timespan = "30d"`, render the query with the timespan
embedded, and dispatch with `log_analytics_tool(query, workspace_id, None)`.
-/
def GetSqlBpAssessment (workspace_id : String) (timespan : Option String) :
    ReportAction :=
  let ts := applyDefaultTimespan timespan
  .logsQuery (GetSqlBpAssessment_query ts) workspace_id none

/-- Embedding of `mcp_tools.GetSwChangesList`: timespan defaulted to
`"30d"`, query rendered with the timespan and server name embedded,
dispatched with timespan `None`. -/
def GetSwChangesList (workspace_id ServerName : String)
    (timespan : Option String) : ReportAction :=
  let ts := applyDefaultTimespan timespan
  .logsQuery (GetSwChangesList_query ts ServerName) workspace_id none

/-- Embedding of `mcp_tools.GetSwConfig`. -/
def GetSwConfig (workspace_id ServerName : String)
    (timespan : Option String) : ReportAction :=
  let ts := applyDefaultTimespan timespan
  .logsQuery (GetSwConfig_query ts ServerName) workspace_id none

/-- Embedding of `mcp_tools.GetWinBpAssessment`. -/
def GetWinBpAssessment (workspace_id : String) (timespan : Option String) :
    ReportAction :=
  let ts := applyDefaultTimespan timespan
  .logsQuery (GetWinBpAssessment_query ts) workspace_id none

/-- Embedding of `mcp_tools.GetAnomalies`. -/
def GetAnomalies (workspace_id : String) (timespan : Option String) :
    ReportAction :=
  let ts := applyDefaultTimespan timespan
  .logsQuery (GetAnomalies_query ts) workspace_id none

/-! ## Helper lemmas about `pyInt?` and `parse_timespan` -/

/-- A decimal digit is not whitespace. -/
lemma isDigit_not_isWhitespace {c : Char} (h : c.isDigit = true) :
    c.isWhitespace = false := by
  simp only [Char.isDigit, Bool.and_eq_true, decide_eq_true_eq] at h
  obtain ⟨h1, h2⟩ := h
  simp only [Char.isWhitespace, Bool.or_eq_false_iff, decide_eq_false_iff_not]
  refine ⟨⟨⟨?_, ?_⟩, ?_⟩, ?_⟩ <;> rintro rfl <;> revert h1 <;> decide

/-- `dropWhile isWhitespace` does nothing to an all-digit run. -/
lemma dropWhile_ws_of_all_digits {cs : List Char}
    (h : cs.all Char.isDigit = true) : cs.dropWhile Char.isWhitespace = cs := by
  cases cs with
  | nil => rfl
  | cons c t =>
    have hc : c.isDigit = true := List.all_eq_true.mp h c (by simp)
    simp [List.dropWhile_cons, isDigit_not_isWhitespace hc]

/-- `trimWs` does nothing to an all-digit run. -/
lemma trimWs_of_all_digits {cs : List Char}
    (h : cs.all Char.isDigit = true) : trimWs cs = cs := by
  have hrev : cs.reverse.all Char.isDigit = true := by
    simp only [List.all_eq_true] at h ⊢
    intro c hc
    exact h c (List.mem_reverse.mp hc)
  unfold trimWs
  rw [dropWhile_ws_of_all_digits h, dropWhile_ws_of_all_digits hrev,
    List.reverse_reverse]

/-- `int()` on a nonempty all-digit string returns its decimal value. -/
lemma pyInt?_of_all_digits {ds : List Char} (hne : ds ≠ [])
    (hd : ds.all Char.isDigit = true) :
    pyInt? (String.mk ds) = some (Int.ofNat (digitsVal ds)) := by
  unfold pyInt?
  have htl : (String.mk ds).toList = ds := rfl
  rw [htl, trimWs_of_all_digits hd]
  cases ds with
  | nil => exact absurd rfl hne
  | cons d t =>
    have hdd : d.isDigit = true := List.all_eq_true.mp hd d (by simp)
    have h1 : ¬ d = '-' := by rintro rfl; revert hdd; decide
    have h2 : ¬ d = '+' := by rintro rfl; revert hdd; decide
    simp [h1, h2, digitsVal?, hd]

/-- Everything `trimWs` keeps was in the original list. -/
lemma mem_of_mem_trimWs {a : Char} {l : List Char} (h : a ∈ trimWs l) :
    a ∈ l := by
  unfold trimWs at h
  rw [List.mem_reverse] at h
  have h2 := (List.dropWhile_sublist Char.isWhitespace).mem h
  rw [List.mem_reverse] at h2
  exact (List.dropWhile_sublist Char.isWhitespace).mem h2

/-- Unfolding of `pyInt?` once the trimmed character list is known. -/
lemma pyInt?_eq_of_trim {x : String} {c : Char} {rest : List Char}
    (hcs : trimWs x.toList = c :: rest) :
    pyInt? x =
      (if c = '-' then (digitsVal? rest).map (fun n => -(Int.ofNat n))
      else if c = '+' then (digitsVal? rest).map (fun n => Int.ofNat n)
      else (digitsVal? (c :: rest)).map (fun n => Int.ofNat n)) := by
  unfold pyInt?
  rw [hcs]

/-- A successful `int()` parse of a string containing no `'-'` is
non-negative. -/
lemma pyInt?_nonneg {x : String} {v : Int} (h : pyInt? x = some v)
    (hm : '-' ∉ x.toList) : 0 ≤ v := by
  cases hcs : trimWs x.toList with
  | nil => rw [pyInt?, hcs] at h; exact absurd h (by simp)
  | cons c rest =>
    rw [pyInt?_eq_of_trim hcs] at h
    by_cases h1 : c = '-'
    · refine absurd (mem_of_mem_trimWs ?_) hm
      rw [hcs, ← h1]
      exact List.mem_cons_self c rest
    · rw [if_neg h1] at h
      by_cases h2 : c = '+'
      · rw [if_pos h2] at h
        obtain ⟨n, -, rfl⟩ := Option.map_eq_some'.mp h
        exact Int.ofNat_nonneg n
      · rw [if_neg h2] at h
        obtain ⟨n, -, rfl⟩ := Option.map_eq_some'.mp h
        exact Int.ofNat_nonneg n

/-- `(String.mk l).toList` is `l`. -/
lemma toList_mk (l : List Char) : (String.mk l).toList = l := rfl

/-- Unfolding of `parse_timespan` on a nonempty token. -/
lemma parse_timespan_cons (now : Int) (c : Char) (cs : List Char) :
    parse_timespan now (some (String.mk (c :: cs))) =
      (if c = 'P' then
        match isoDays? (c :: cs) with
        | some days => .ok (now - timedeltaDays days, now)
        | none => .ok (now - timedeltaDays 1, now)
      else
        match pyInt? (String.mk (c :: cs).dropLast) with
        | some value =>
          if (List.getLast (c :: cs) (List.cons_ne_nil c cs)).toLower = 'd' then
            .ok (now - timedeltaDays value, now)
          else if (List.getLast (c :: cs) (List.cons_ne_nil c cs)).toLower = 'h' then
            .ok (now - timedeltaHours value, now)
          else if (List.getLast (c :: cs) (List.cons_ne_nil c cs)).toLower = 'm' then
            .ok (now - timedeltaMinutes value, now)
          else
            match pyInt? (String.mk (c :: cs)) with
            | some w => .ok (now - timedeltaDays w, now)
            | none => .ok (now - timedeltaDays 1, now)
        | none => .ok (now - timedeltaDays 1, now)) := rfl

/-- `_parse_timespan` returns a window (raises nothing) on every token but
the empty string. -/
lemma parse_timespan_ok (now : Int) {s : String} (hne : s ≠ "") :
    ∃ w, parse_timespan now (some s) = .ok w := by
  obtain ⟨d⟩ := s
  cases d with
  | nil => exact absurd rfl hne
  | cons c cs =>
    rw [parse_timespan_cons]
    repeat' split
    all_goals exact ⟨_, rfl⟩

/-- The last element of `d :: (t ++ [u])` is `u` (Python `timespan[-1]`). -/
lemma getLast_cons_append_singleton {α : Type*} :
    ∀ (d : α) (t : List α) (u : α),
      (d :: (t ++ [u])).getLast (List.cons_ne_nil d (t ++ [u])) = u
  | _, [], _ => rfl
  | _, x :: xs, u => by
    rw [List.getLast_cons (by simp)]
    exact getLast_cons_append_singleton x xs u

/-- Dropping the last element of `d :: (t ++ [u])` gives `d :: t`
(Python `timespan[:-1]`). -/
lemma dropLast_cons_append_singleton {α : Type*} :
    ∀ (d : α) (t : List α) (u : α), (d :: (t ++ [u])).dropLast = d :: t
  | _, [], _ => rfl
  | d, x :: xs, u => by
    show d :: (x :: (xs ++ [u])).dropLast = d :: x :: xs
    rw [dropLast_cons_append_singleton x xs u]

/-! ## Claim C3 -/

/-- C3: for every token `"<n><unit>"` with `n` a non-negative decimal digit
run and unit in d/h/m (case-insensitive), `_parse_timespan` returns the
window ending at `now` whose length is exactly `n` of the indicated unit
(1440, 60 or 1 minutes per unit), so `end - start` equals exactly `n`
units, and `n = 0` gives `start = end`. -/
theorem C3_unit_token_exact_window (now : Int) (ds : List Char) (u : Char)
    (hne : ds ≠ []) (hd : ds.all Char.isDigit = true)
    (hu : u.toLower = 'd' ∨ u.toLower = 'h' ∨ u.toLower = 'm') :
    parse_timespan now (some (String.mk (ds ++ [u]))) =
      .ok (now - unitMinutes u.toLower * Int.ofNat (digitsVal ds), now) := by
  cases ds with
  | nil => exact absurd rfl hne
  | cons d t =>
    have hdd : d.isDigit = true := List.all_eq_true.mp hd d (by simp)
    have hP : ¬ d = 'P' := by rintro rfl; revert hdd; decide
    show parse_timespan now (some (String.mk (d :: (t ++ [u])))) =
      .ok (now - unitMinutes u.toLower * Int.ofNat (digitsVal (d :: t)), now)
    rw [parse_timespan_cons, if_neg hP]
    rw [dropLast_cons_append_singleton, pyInt?_of_all_digits (by simp) hd]
    simp only [getLast_cons_append_singleton]
    rcases hu with h | h | h <;>
      simp [h, unitMinutes, timedeltaDays, timedeltaHours, timedeltaMinutes]

/-- C3 witness: `"30d"` parses to the window of exactly 30 days ending at
`now = 0`. -/
theorem C3_unit_token_exact_window_witness :
    parse_timespan 0 (some (String.mk (['3', '0'] ++ ['d']))) =
      .ok (0 - unitMinutes 'd'.toLower * Int.ofNat (digitsVal ['3', '0']), 0) :=
  C3_unit_token_exact_window 0 ['3', '0'] 'd' (by decide) (by decide)
    (by decide)

/-! ## Claim C2 -/

/-- C2 counterexample: the claim fails twice. `_parse_timespan("")` raises
an `IndexError` rather than returning a window (`timespan[-1]` runs before
the `try` that guards the `int()` calls), and the non-empty garbage token
`"305"`, which matches neither the `"<n><unit>"` pattern (its last
character is not a unit letter) nor the ISO pattern, yields a 305-day
window via the `int(timespan)` conversion instead of the 1-day fallback. -/
theorem C2_counterexample :
    parse_timespan 0 (some "") = .error "IndexError: string index out of range" ∧
    parse_timespan 0 (some "305") = .ok (-439200, 0) ∧
    parse_timespan 0 (some "305") ≠ .ok (0 - timedeltaDays 1, 0) :=
  ⟨by decide, by decide, by decide⟩

/-- Unfolding of the `"<n><unit>"` branch of `_parse_timespan` once
`int(timespan[:-1])` is known to succeed. -/
lemma parse_timespan_unit_branch {now v : Int} {c : Char} {cs : List Char}
    (hP : ¬ c = 'P')
    (hpre : pyInt? (String.mk ((c :: cs).dropLast)) = some v) :
    parse_timespan now (some (String.mk (c :: cs))) =
      (if (List.getLast (c :: cs) (List.cons_ne_nil c cs)).toLower = 'd' then
        .ok (now - timedeltaDays v, now)
      else if (List.getLast (c :: cs) (List.cons_ne_nil c cs)).toLower = 'h' then
        .ok (now - timedeltaHours v, now)
      else if (List.getLast (c :: cs) (List.cons_ne_nil c cs)).toLower = 'm' then
        .ok (now - timedeltaMinutes v, now)
      else
        match pyInt? (String.mk (c :: cs)) with
        | some w => .ok (now - timedeltaDays w, now)
        | none => .ok (now - timedeltaDays 1, now)) := by
  rw [parse_timespan_cons, if_neg hP, hpre]

/-- C2 amended: `_parse_timespan` returns a window on every input except
the empty string, on which `timespan[-1]` raises `IndexError` before the
`try` block (`run_query` catches it upstream). For a non-empty input not
starting with `P`, the 1-day fallback occurs exactly when the code's
integer conversions fail: when `int(timespan[:-1])` fails, or when the
lowercased last character is none of d/h/m and `int(timespan)` also fails
(e.g. `"5x"`); in every other case the token yields an integer-derived
window — a d/h/m token gives a window of that many units, and an
unrecognized-unit token whose whole text parses as an integer (`"305"`)
gives that many days. A `P`-input gives `n` days when the ISO pattern
matches and otherwise falls back to 1 day. The nine conjuncts cover every
branch of the parser, so the fallback arises in the three listed failure
cases and in no other. -/
theorem C2_parser_totality_and_fallback_amended :
    (∀ (now : Int) (ts : Option String),
      (∃ w, parse_timespan now ts = .ok w) ↔ ts ≠ some "") ∧
    (∀ (now : Int) (c : Char) (cs : List Char), ¬ c = 'P' →
      pyInt? (String.mk ((c :: cs).dropLast)) = none →
      parse_timespan now (some (String.mk (c :: cs))) =
        .ok (now - timedeltaDays 1, now)) ∧
    (∀ (now v : Int) (c : Char) (cs : List Char), ¬ c = 'P' →
      pyInt? (String.mk ((c :: cs).dropLast)) = some v →
      ¬ (List.getLast (c :: cs) (List.cons_ne_nil c cs)).toLower = 'd' →
      ¬ (List.getLast (c :: cs) (List.cons_ne_nil c cs)).toLower = 'h' →
      ¬ (List.getLast (c :: cs) (List.cons_ne_nil c cs)).toLower = 'm' →
      pyInt? (String.mk (c :: cs)) = none →
      parse_timespan now (some (String.mk (c :: cs))) =
        .ok (now - timedeltaDays 1, now)) ∧
    (∀ (now v : Int) (c : Char) (cs : List Char), ¬ c = 'P' →
      pyInt? (String.mk ((c :: cs).dropLast)) = some v →
      (List.getLast (c :: cs) (List.cons_ne_nil c cs)).toLower = 'd' →
      parse_timespan now (some (String.mk (c :: cs))) =
        .ok (now - timedeltaDays v, now)) ∧
    (∀ (now v : Int) (c : Char) (cs : List Char), ¬ c = 'P' →
      pyInt? (String.mk ((c :: cs).dropLast)) = some v →
      (List.getLast (c :: cs) (List.cons_ne_nil c cs)).toLower = 'h' →
      parse_timespan now (some (String.mk (c :: cs))) =
        .ok (now - timedeltaHours v, now)) ∧
    (∀ (now v : Int) (c : Char) (cs : List Char), ¬ c = 'P' →
      pyInt? (String.mk ((c :: cs).dropLast)) = some v →
      (List.getLast (c :: cs) (List.cons_ne_nil c cs)).toLower = 'm' →
      parse_timespan now (some (String.mk (c :: cs))) =
        .ok (now - timedeltaMinutes v, now)) ∧
    (∀ (now v w : Int) (c : Char) (cs : List Char), ¬ c = 'P' →
      pyInt? (String.mk ((c :: cs).dropLast)) = some v →
      ¬ (List.getLast (c :: cs) (List.cons_ne_nil c cs)).toLower = 'd' →
      ¬ (List.getLast (c :: cs) (List.cons_ne_nil c cs)).toLower = 'h' →
      ¬ (List.getLast (c :: cs) (List.cons_ne_nil c cs)).toLower = 'm' →
      pyInt? (String.mk (c :: cs)) = some w →
      parse_timespan now (some (String.mk (c :: cs))) =
        .ok (now - timedeltaDays w, now)) ∧
    (∀ (now : Int) (cs : List Char), isoDays? ('P' :: cs) = none →
      parse_timespan now (some (String.mk ('P' :: cs))) =
        .ok (now - timedeltaDays 1, now)) ∧
    (∀ (now : Int) (cs : List Char) (days : Nat),
      isoDays? ('P' :: cs) = some days →
      parse_timespan now (some (String.mk ('P' :: cs))) =
        .ok (now - timedeltaDays days, now)) := by
  refine ⟨?_, ?_, ?_, ?_, ?_, ?_, ?_, ?_, ?_⟩
  · intro now ts
    match ts with
    | none =>
      constructor
      · intro _
        simp
      · intro _
        exact ⟨_, rfl⟩
    | some s =>
      constructor
      · rintro ⟨w, hw⟩ heq
        rw [Option.some_inj.mp heq] at hw
        have herr : parse_timespan now (some "") =
            .error "IndexError: string index out of range" := rfl
        rw [herr] at hw
        exact absurd hw (by simp)
      · intro hne
        exact parse_timespan_ok now (fun h => hne (by rw [h]))
  · intro now c cs hP hpy
    rw [parse_timespan_cons, if_neg hP, hpy]
  · intro now v c cs hP hpre hd hh hm hfull
    rw [parse_timespan_unit_branch hP hpre, if_neg hd, if_neg hh, if_neg hm,
      hfull]
  · intro now v c cs hP hpre hd
    rw [parse_timespan_unit_branch hP hpre, if_pos hd]
  · intro now v c cs hP hpre hh
    rw [parse_timespan_unit_branch hP hpre,
      if_neg (fun hd => by rw [hh] at hd; exact absurd hd (by decide)),
      if_pos hh]
  · intro now v c cs hP hpre hm
    rw [parse_timespan_unit_branch hP hpre,
      if_neg (fun hd => by rw [hm] at hd; exact absurd hd (by decide)),
      if_neg (fun hh => by rw [hm] at hh; exact absurd hh (by decide)),
      if_pos hm]
  · intro now v w c cs hP hpre hd hh hm hfull
    rw [parse_timespan_unit_branch hP hpre, if_neg hd, if_neg hh, if_neg hm,
      hfull]
  · intro now cs hiso
    rw [parse_timespan_cons, if_pos rfl, hiso]
  · intro now cs days hiso
    rw [parse_timespan_cons, if_pos rfl, hiso]

/-- C2 witness: the amended characterization exercised on three concrete
tokens — `"zz"` (prefix conversion fails: 1-day fallback), `"5x"` (prefix
parses but the unit is unrecognized and `int("5x")` fails: 1-day
fallback), and `"305"` (unrecognized unit but `int("305")` succeeds:
305-day window). -/
theorem C2_parser_totality_and_fallback_amended_witness :
    parse_timespan 0 (some (String.mk ['z', 'z'])) =
      .ok (0 - timedeltaDays 1, 0) ∧
    parse_timespan 0 (some (String.mk ['5', 'x'])) =
      .ok (0 - timedeltaDays 1, 0) ∧
    parse_timespan 0 (some (String.mk ['3', '0', '5'])) =
      .ok (0 - timedeltaDays 305, 0) :=
  ⟨C2_parser_totality_and_fallback_amended.2.1 0 'z' ['z'] (by decide)
    (by decide),
   C2_parser_totality_and_fallback_amended.2.2.1 0 5 '5' ['x'] (by decide)
    (by decide) (by decide) (by decide) (by decide) (by decide),
   C2_parser_totality_and_fallback_amended.2.2.2.2.2.2.1 0 30 305 '3'
    ['0', '5'] (by decide) (by decide) (by decide) (by decide) (by decide)
    (by decide)⟩

/-! ## Claim C5 -/

/-- C5 counterexample: the negative token `"-5d"` is not treated as
unparsable — `int("-5")` succeeds — and `_parse_timespan` returns
`(now + 5 days, now)`, an end-before-start window violating
`start <= end`, instead of the claimed 1-day fallback. -/
theorem C5_counterexample :
    parse_timespan 0 (some "-5d") = .ok (7200, 0) ∧
    ¬ ((7200 : Int) ≤ 0) ∧
    parse_timespan 0 (some "-5d") ≠ .ok (0 - timedeltaDays 1, 0) :=
  ⟨by decide, by decide, by decide⟩

/-- C5 amended: every window `_parse_timespan` returns for a token that
carries no `'-'` character satisfies `start <= end` (and ends at `now`);
a token with a negative number (e.g. `"-5d"`) is accepted by the `int()`
conversion and silently yields an end-before-start window rather than
falling back to 1 day. -/
theorem C5_start_le_end_amended (now : Int) (ts : Option String) (s e : Int)
    (hok : parse_timespan now ts = .ok (s, e))
    (hneg : ∀ str, ts = some str → '-' ∉ str.toList) :
    s ≤ e ∧ e = now := by
  match ts with
  | none =>
    have h : parse_timespan now none = .ok (now - timedeltaDays 1, now) := rfl
    rw [h, Except.ok.injEq, Prod.mk.injEq] at hok
    obtain ⟨h1, h2⟩ := hok
    subst h1; subst h2
    simp only [timedeltaDays]
    exact ⟨by omega, by trivial⟩
  | some str =>
    have hm : '-' ∉ str.toList := hneg str rfl
    obtain ⟨dl⟩ := str
    cases dl with
    | nil =>
      have h : parse_timespan now (some (String.mk [])) =
          .error "IndexError: string index out of range" := rfl
      rw [h] at hok
      exact absurd hok (by simp)
    | cons c cs =>
      rw [parse_timespan_cons] at hok
      have hmem : '-' ∉ (c :: cs) := hm
      split at hok
      · -- ISO branch: the number of days is a natural, never negative
        split at hok <;>
          · rw [Except.ok.injEq, Prod.mk.injEq] at hok
            obtain ⟨h1, h2⟩ := hok
            subst h1; subst h2
            simp only [timedeltaDays]
            exact ⟨by omega, by trivial⟩
      · -- "<n><unit>" branch
        split at hok
        next value hval =>
          have hvnn : 0 ≤ value := by
            refine pyInt?_nonneg hval ?_
            intro hc
            exact hmem (List.dropLast_subset _ hc)
          split at hok
          · rw [Except.ok.injEq, Prod.mk.injEq] at hok
            obtain ⟨h1, h2⟩ := hok
            subst h1; subst h2
            simp only [timedeltaDays]
            exact ⟨by omega, by trivial⟩
          · split at hok
            · rw [Except.ok.injEq, Prod.mk.injEq] at hok
              obtain ⟨h1, h2⟩ := hok
              subst h1; subst h2
              simp only [timedeltaHours]
              exact ⟨by omega, by trivial⟩
            · split at hok
              · rw [Except.ok.injEq, Prod.mk.injEq] at hok
                obtain ⟨h1, h2⟩ := hok
                subst h1; subst h2
                simp only [timedeltaMinutes]
                exact ⟨by omega, by trivial⟩
              · -- unrecognized unit: int(timespan) days
                split at hok
                next w hw =>
                  have hwnn : 0 ≤ w := pyInt?_nonneg hw hmem
                  rw [Except.ok.injEq, Prod.mk.injEq] at hok
                  obtain ⟨h1, h2⟩ := hok
                  subst h1; subst h2
                  simp only [timedeltaDays]
                  exact ⟨by omega, by trivial⟩
                next hw =>
                  rw [Except.ok.injEq, Prod.mk.injEq] at hok
                  obtain ⟨h1, h2⟩ := hok
                  subst h1; subst h2
                  simp only [timedeltaDays]
                  exact ⟨by omega, by trivial⟩
        next hval =>
          rw [Except.ok.injEq, Prod.mk.injEq] at hok
          obtain ⟨h1, h2⟩ := hok
          subst h1; subst h2
          simp only [timedeltaDays]
          exact ⟨by omega, by trivial⟩

/-- C5 witness: the amended invariant applied to the token `"5d"` at
`now = 0`: the window `(-7200, 0)` satisfies `start <= end`. -/
theorem C5_start_le_end_amended_witness :
    (-7200 : Int) ≤ 0 ∧ (0 : Int) = 0 :=
  C5_start_le_end_amended 0 (some "5d") (-7200) 0 (by decide)
    (by intro str h; rw [← Option.some_inj.mp h]; decide)

/-! ## Claim C6 -/

/-- C6 counterexample: the bare parser satisfies neither equation of the
claim: `_parse_timespan(None)` yields the 1-day window (the final `else`
branch), not the 30-day default, and `_parse_timespan("")` raises
`IndexError` instead of returning a window at all. -/
theorem C6_counterexample :
    parse_timespan 0 none = .ok (0 - timedeltaDays 1, 0) ∧
    parse_timespan 0 (some "") = .error "IndexError: string index out of range" ∧
    parse_timespan 0 none ≠ .ok (0 - timedeltaDays 30, 0) :=
  ⟨by decide, by decide, by decide⟩

/-- C6 amended: the null/empty defaulting lives in the dispatcher, not the
parser. `mcp_tools.log_analytics_tool` replaces a falsy timespan (`None`
or `""`) with `"30d"` before dispatch, so at that layer both produce the
same 30-day window ending at `now`; the bare `_parse_timespan` maps `None`
to the 1-day window and raises `IndexError` on `""`. -/
theorem C6_default_window_amended (now : Int) :
    applyDefaultTimespan none = applyDefaultTimespan (some "") ∧
    parse_timespan now (some (applyDefaultTimespan none)) =
      .ok (now - timedeltaDays 30, now) ∧
    parse_timespan now none = .ok (now - timedeltaDays 1, now) ∧
    parse_timespan now (some "") =
      .error "IndexError: string index out of range" :=
  ⟨rfl, rfl, rfl, rfl⟩

/-! ## Claim C1 -/

/-- Unfolding of `run_query` when the timespan parses. -/
lemma run_query_parse_ok {backend : QueryBackend} {now : Int}
    {q ws : String} {ts : Option String} {w : Int × Int}
    (hp : parse_timespan now ts = .ok w) :
    run_query backend now q ws ts =
      (match backend q ws w with
      | .error e => .vdict [("error", .vstr e)]
      | .ok tables =>
        .vlist (tables.map (fun t => .dataframe t.columns t.rows))) := by
  unfold run_query
  rw [hp]

/-- Unfolding of `run_query` when the timespan parse raises. -/
lemma run_query_parse_err {backend : QueryBackend} {now : Int}
    {q ws : String} {ts : Option String} {msg : String}
    (hp : parse_timespan now ts = .error msg) :
    run_query backend now q ws ts = .vdict [("error", .vstr msg)] := by
  unfold run_query
  rw [hp]

/-- The defaulted timespan is never the empty string. -/
lemma applyDefaultTimespan_ne_empty (ts : Option String) :
    applyDefaultTimespan ts ≠ "" := by
  match ts with
  | none => decide
  | some s =>
    by_cases h : s = "" <;> simp [applyDefaultTimespan, h]

/-- C1: for every query, workspace id and timespan, if the backend raises
on `run`, `log_analytics_tool` returns exactly the structured value
`{"error": message}` and `run_query` returns a value of that shape; the
fault never propagates — both functions are total and the `except` clauses
turn every raised exception into the error dict. -/
theorem C1_backend_fault_to_error_envelope (backend : QueryBackend)
    (now : Int) (q ws : String) (ts : Option String) (e : String)
    (hb : ∀ q' w' win, backend q' w' win = Except.error e) :
    log_analytics_tool backend now q ws ts = .vdict [("error", .vstr e)] ∧
    ∃ msg, run_query backend now q ws ts = .vdict [("error", .vstr msg)] := by
  constructor
  · obtain ⟨w, hw⟩ :=
      parse_timespan_ok now (applyDefaultTimespan_ne_empty ts)
    unfold log_analytics_tool
    rw [run_query_parse_ok hw, hb]
    rfl
  · cases hp : parse_timespan now ts with
    | error msg =>
      rw [run_query_parse_err hp]
      exact ⟨msg, rfl⟩
    | ok w =>
      rw [run_query_parse_ok hp, hb]
      exact ⟨e, rfl⟩

/-- C1 witness: a backend stub that always raises `"boom"` yields the
`{"error": "boom"}` envelope. -/
theorem C1_backend_fault_to_error_envelope_witness :
    log_analytics_tool (fun _ _ _ => Except.error "boom") 0 "q" "ws" none =
      .vdict [("error", .vstr "boom")] :=
  (C1_backend_fault_to_error_envelope (fun _ _ _ => Except.error "boom")
    0 "q" "ws" none "boom" (fun _ _ _ => rfl)).1

/-! ## Claim C8 -/

/-- C8: `GetSqlBpAssessment` invoked with no timespan applies the 30-day
default: the dispatched call is identical to the one for the explicit
token `"30d"`, its query text is the template rendered at `"30d"` (whose
embedded filter is `TimeGenerated > ago(30d)`), and the token `"30d"`
denotes exactly the last 30 days ending at `now`. -/
theorem C8_sqlbp_default_thirty_days (ws : String) (now : Int) :
    GetSqlBpAssessment ws none = GetSqlBpAssessment ws (some "30d") ∧
    GetSqlBpAssessment ws none =
      .logsQuery (GetSqlBpAssessment_query "30d") ws none ∧
    parse_timespan now (some "30d") = .ok (now - timedeltaDays 30, now) :=
  ⟨rfl, rfl, rfl⟩

/-! ## Claim C10 -/

/-- C10: every report that embeds the caller timespan in its query text
hands the dispatcher timespan `None`; `log_analytics_tool` then replaces
`None` with `"30d"`, so the window passed to the backend API call is
always the 30-day window, whatever the caller asked for — e.g. a `"90d"`
request renders `ago(90d)` into the query text yet is dispatched with
timespan `None`. -/
theorem C10_api_window_always_thirty_days (ws srv : String)
    (ts : Option String) (now : Int) :
    GetSqlBpAssessment ws ts =
      .logsQuery (GetSqlBpAssessment_query (applyDefaultTimespan ts)) ws none ∧
    GetSwChangesList ws srv ts =
      .logsQuery (GetSwChangesList_query (applyDefaultTimespan ts) srv) ws none ∧
    GetSwConfig ws srv ts =
      .logsQuery (GetSwConfig_query (applyDefaultTimespan ts) srv) ws none ∧
    GetWinBpAssessment ws ts =
      .logsQuery (GetWinBpAssessment_query (applyDefaultTimespan ts)) ws none ∧
    GetAnomalies ws ts =
      .logsQuery (GetAnomalies_query (applyDefaultTimespan ts)) ws none ∧
    parse_timespan now (some (applyDefaultTimespan none)) =
      .ok (now - timedeltaDays 30, now) ∧
    GetSqlBpAssessment ws (some "90d") =
      .logsQuery (GetSqlBpAssessment_query "90d") ws none :=
  ⟨rfl, rfl, rfl, rfl, rfl, rfl, rfl⟩

/-! ## Claim C7 -/

/-- C7 counterexample: `GetSqlBpAssessment` requires a workspace id per
the tool catalog, yet invoked with an empty workspace id it performs no
validation and issues a backend dispatch (with the empty id embedded)
instead of failing with a missing-parameter error. -/
theorem C7_counterexample :
    (GetSqlBpAssessment "" none).isEarlyError = false ∧
    GetSqlBpAssessment "" none =
      .logsQuery (GetSqlBpAssessment_query "30d") "" none :=
  ⟨rfl, rfl⟩

/-- C7 amended: only the subscription-based reports validate their
required parameter: `GetServerMetadata`, `GetSqlMetadata` and
`GetPatchingLevel` return the structured `{"error": "subscription_id is
required"}` document, issuing no backend query, when the subscription id
is missing/empty; the workspace-based reports dispatch unconditionally. -/
theorem C7_missing_param_amended :
    GetServerMetadata "" = .earlyError "subscription_id is required" ∧
    GetSqlMetadata "" = .earlyError "subscription_id is required" ∧
    GetPatchingLevel "" = .earlyError "subscription_id is required" ∧
    (GetServerMetadata "").isEarlyError = true :=
  ⟨rfl, rfl, rfl, rfl⟩

/-! ## Claim C9 -/

/-- `ensureList` is element-wise `ensure_serializable`. -/
lemma ensureList_eq_map : ∀ l : List PyVal,
    ensureList l = l.map ensure_serializable
  | [] => rfl
  | v :: vs => by
    show ensure_serializable v :: ensureList vs =
      ensure_serializable v :: vs.map ensure_serializable
    rw [ensureList_eq_map vs]

/-- `ensureEntries` is value-wise `ensure_serializable`. -/
lemma ensureEntries_eq_map : ∀ l : List (String × PyVal),
    ensureEntries l = l.map (fun p => (p.1, ensure_serializable p.2))
  | [] => rfl
  | (k, v) :: es => by
    show (k, ensure_serializable v) :: ensureEntries es =
      (k, ensure_serializable v) :: es.map (fun p => (p.1, ensure_serializable p.2))
    rw [ensureEntries_eq_map es]

/-- C9: an object that is none of the pandas/datetime special cases but
exposes `to_dict` has `obj.to_dict()` returned raw — its inner values are
not canonicalized — whereas list, tuple and dict inputs are canonicalized
element by element recursively. -/
theorem C9_to_dict_raw_collections_recursive (d : PyVal)
    (items : List PyVal) (entries : List (String × PyVal)) :
    ensure_serializable (.objToDict d) = d ∧
    ensure_serializable (.vlist items) =
      .vlist (items.map ensure_serializable) ∧
    ensure_serializable (.vtuple items) =
      .vlist (items.map ensure_serializable) ∧
    ensure_serializable (.vdict entries) =
      .vdict (entries.map (fun p => (p.1, ensure_serializable p.2))) := by
  refine ⟨rfl, ?_, ?_, ?_⟩
  · show PyVal.vlist (ensureList items) = .vlist (items.map ensure_serializable)
    rw [ensureList_eq_map]
  · show PyVal.vlist (ensureList items) = .vlist (items.map ensure_serializable)
    rw [ensureList_eq_map]
  · show PyVal.vdict (ensureEntries entries) =
      .vdict (entries.map (fun p => (p.1, ensure_serializable p.2)))
    rw [ensureEntries_eq_map]

/-! ## Claim C4 -/

mutual

/-- `true` iff the value contains none of the constructors whose
canonicalization returns inner values raw (`DataFrame.to_dict(records)`,
`Series/Index.tolist()`, a bare `to_dict()` object): on these,
`ensure_serializable` skips recursion, which is what breaks idempotence. -/
def noRawShortcut : PyVal → Bool
  | .dataframe _ _ => false
  | .series _ => false
  | .objToDict _ => false
  | .objDict fields => noRawShortcutEntries fields
  | .vlist items => noRawShortcutList items
  | .vtuple items => noRawShortcutList items
  | .vdict entries => noRawShortcutEntries entries
  | _ => true

/-- `noRawShortcut` over a list of values. -/
def noRawShortcutList : List PyVal → Bool
  | [] => true
  | v :: vs => noRawShortcut v && noRawShortcutList vs

/-- `noRawShortcut` over the values of key/value pairs. -/
def noRawShortcutEntries : List (String × PyVal) → Bool
  | [] => true
  | (_, v) :: es => noRawShortcut v && noRawShortcutEntries es

end

mutual

/-- `ensure_serializable` is idempotent on values with no raw shortcut. -/
theorem ensure_idem : ∀ x : PyVal, noRawShortcut x = true →
    ensure_serializable (ensure_serializable x) = ensure_serializable x
  | .vnone, _ => rfl
  | .vbool _, _ => rfl
  | .vint _, _ => rfl
  | .vstr _, _ => rfl
  | .timestamp _, _ => rfl
  | .datetime _, _ => rfl
  | .date _, _ => rfl
  | .dataframe _ _, h => by simp [noRawShortcut] at h
  | .series _, h => by simp [noRawShortcut] at h
  | .objToDict _, h => by simp [noRawShortcut] at h
  | .objDict fields, h => by
    show PyVal.vdict (ensureEntries (ensureEntries fields)) =
      .vdict (ensureEntries fields)
    rw [ensureEntries_idem fields h]
  | .vlist items, h => by
    show PyVal.vlist (ensureList (ensureList items)) =
      .vlist (ensureList items)
    rw [ensureList_idem items h]
  | .vtuple items, h => by
    show PyVal.vlist (ensureList (ensureList items)) =
      .vlist (ensureList items)
    rw [ensureList_idem items h]
  | .vdict entries, h => by
    show PyVal.vdict (ensureEntries (ensureEntries entries)) =
      .vdict (ensureEntries entries)
    rw [ensureEntries_idem entries h]
  | .foreign r dumpable, _ => by
    cases dumpable with
    | true => rfl
    | false => rfl

/-- List version of `ensure_idem`. -/
theorem ensureList_idem : ∀ l : List PyVal, noRawShortcutList l = true →
    ensureList (ensureList l) = ensureList l
  | [], _ => rfl
  | v :: vs, h => by
    obtain ⟨h1, h2⟩ := Bool.and_eq_true_iff.mp h
    show ensure_serializable (ensure_serializable v) ::
        ensureList (ensureList vs) =
      ensure_serializable v :: ensureList vs
    rw [ensure_idem v h1, ensureList_idem vs h2]

/-- Entry version of `ensure_idem`. -/
theorem ensureEntries_idem : ∀ l : List (String × PyVal),
    noRawShortcutEntries l = true →
    ensureEntries (ensureEntries l) = ensureEntries l
  | [], _ => rfl
  | (k, v) :: es, h => by
    obtain ⟨h1, h2⟩ := Bool.and_eq_true_iff.mp h
    show (k, ensure_serializable (ensure_serializable v)) ::
        ensureEntries (ensureEntries es) =
      (k, ensure_serializable v) :: ensureEntries es
    rw [ensure_idem v h1, ensureEntries_idem es h2]

end

/-- C4 counterexample: idempotence fails on the to_dict/tolist shortcuts.
An object whose `to_dict()` result contains a datetime, a DataFrame with a
datetime cell, and a Series with a datetime element each canonicalize to a
value that still contains the raw datetime, and a second pass converts it
to its ISO string, so `f (f x) ≠ f x`. -/
theorem C4_counterexample :
    ensure_serializable (ensure_serializable
        (.objToDict (.vdict [("a", .datetime "2024-01-01T00:00:00")]))) ≠
      ensure_serializable
        (.objToDict (.vdict [("a", .datetime "2024-01-01T00:00:00")])) ∧
    ensure_serializable (ensure_serializable
        (.dataframe ["a"] [[.datetime "2024-01-01T00:00:00"]])) ≠
      ensure_serializable
        (.dataframe ["a"] [[.datetime "2024-01-01T00:00:00"]]) ∧
    ensure_serializable (ensure_serializable
        (.series [.datetime "2024-01-01T00:00:00"])) ≠
      ensure_serializable (.series [.datetime "2024-01-01T00:00:00"]) := by
  refine ⟨?_, ?_, ?_⟩ <;>
    simp [ensure_serializable, ensureEntries, ensureList]

/-- C4 amended: `ensure_serializable` is idempotent on date/time-like
values, plain scalars, `__dict__` objects and nested list/tuple/dict
collections thereof — every input containing no DataFrame, Series/Index or
`to_dict`-bearing object, i.e. no branch that returns inner values raw.
On those shortcut branches idempotence fails (see the counterexample). -/
theorem C4_idempotent_amended (x : PyVal) (h : noRawShortcut x = true) :
    ensure_serializable (ensure_serializable x) = ensure_serializable x :=
  ensure_idem x h

/-- C4 witness: idempotence on a concrete nested collection with a
datetime, a scalar and a tuple. -/
theorem C4_idempotent_amended_witness :
    ensure_serializable (ensure_serializable
        (.vlist [.datetime "2024-01-01T00:00:00", .vint 3,
          .vtuple [.date "2024-01-01"]])) =
      ensure_serializable
        (.vlist [.datetime "2024-01-01T00:00:00", .vint 3,
          .vtuple [.date "2024-01-01"]]) :=
  C4_idempotent_amended
    (.vlist [.datetime "2024-01-01T00:00:00", .vint 3,
      .vtuple [.date "2024-01-01"]]) rfl
